import Mathlib

/-!
Verification development for the soil-smarter repository: a shallow
embedding of the prediction intake form (`PredictionForm`, handleSubmit)
and the dashboard aggregation logic (`Dashboard.tsx`), together with
theorems settling the specification's claims about them.

Modelling conventions:
* JavaScript numbers are modelled as rationals (ℚ); the random draws of
  `Math.random()` are parameters constrained to `0 ≤ r < 1`.
* `Number.prototype.toFixed(f)` returns a string; per ECMA-262 it renders
  the integer n closest to x·10^f, ties resolved by picking the larger n.
  `toFixedVal` is the rational value n/10^f, `toFixedStr` the string.
* Timestamps (`created_at`) are modelled as naturals; the locale date
  rendering `toLocaleDateString` is an uninterpreted parameter
  `fmtDate : Nat → String`.
* The supabase results carry their payload in a `data` field that may be
  null; `Option` models that. `Promise.all` either fulfills with all three
  results or rejects with the first error, which the `catch` logs.
-/

namespace SoilSmarter

/-- Left-pad a digit string with zeros up to length `f`
(used to render the fractional part of a fixed-decimal number). -/
def padZeros (f : Nat) (s : String) : String :=
  String.mk (List.replicate (f - s.length) '0') ++ s

/-- Render the scaled integer `n` (the value times `10^f`) as a decimal
string with `f` digits after the point, as `Number.prototype.toFixed` does. -/
def fixedDigits (f : Nat) (n : Int) : String :=
  let sign : String := if n < 0 then "-" else ""
  let a : Nat := n.natAbs
  if f = 0 then sign ++ toString a
  else sign ++ toString (a / 10 ^ f) ++ "." ++ padZeros f (toString (a % 10 ^ f))

/-- The integer that `x.toFixed(f)` renders: the integer closest to
`x·10^f`, ties picking the larger candidate (ECMA-262 Number.prototype.toFixed). -/
def toFixedInt (f : Nat) (x : ℚ) : Int :=
  ⌊x * (10 : ℚ) ^ f + 1 / 2⌋

/-- The numeric value denoted by the string `x.toFixed(f)`. -/
def toFixedVal (f : Nat) (x : ℚ) : ℚ :=
  (toFixedInt f x : ℚ) / (10 : ℚ) ^ f

/-- The string `x.toFixed(f)`. -/
def toFixedStr (f : Nat) (x : ℚ) : String :=
  fixedDigits f (toFixedInt f x)

/-! ### Prediction intake form (src/unnamed/part_000) -/

/-- Record of string-typed form fields (`interface FormData`). -/
structure FormData where
  name : String
  phone : String
  location : String
  crop : String
  area : String
  soilPh : String
  soilMoisture : String
  organicMatter : String
deriving DecidableEq

/-- A toast notification as issued through `useToast`; `destructive` records
whether the `variant: "destructive"` (blocking error style) was used. -/
structure ToastMsg where
  title : String
  description : String
  destructive : Bool
deriving DecidableEq

/-- The nested `weather` object of the mock result. -/
structure Weather where
  temperature : String
  rainfall : String
deriving DecidableEq

/-- The `mockResult` object handed to `onPrediction`; every numeric field
is a string produced by `toFixed`, and `farmData` is the raw form record. -/
structure MockResult where
  yield : String
  weather : Weather
  confidence : String
  farmData : FormData
deriving DecidableEq

/-- Validation condition `!formData.name || !formData.phone ||
!formData.location || !formData.crop`: a JS string is falsy exactly when it
is the empty string. -/
def missingRequired (fd : FormData) : Bool :=
  fd.name == "" || fd.phone == "" || fd.location == "" || fd.crop == ""

/-- The `mockResult` constructed in the timeout callback, with the four
`Math.random()` draws as parameters `r1..r4`. -/
def mockResult (fd : FormData) (r1 r2 r3 r4 : ℚ) : MockResult :=
  { yield := toFixedStr 2 (r1 * 3 + 2)
    weather := { temperature := toFixedStr 1 (r2 * 10 + 18)
                 rainfall := toFixedStr 0 (r3 * 60 + 30) }
    confidence := toFixedStr 0 (r4 * 20 + 80)
    farmData := fd }

/-- Observable outcome of one `handleSubmit` run: the list of
`onPrediction` invocations in order, the toasts raised, the form field
record afterwards, and the final `isLoading` flag. -/
structure SubmitOutcome where
  predictions : List MockResult
  toasts : List ToastMsg
  formData : FormData
  isLoading : Bool
deriving DecidableEq

/-- Submission handler `handleSubmit`: validates the four required fields; on failure raises a
destructive toast and returns without invoking the callback; on success
(after the simulated 2-second delay) invokes `onPrediction` once with the
mock result and raises the completion toast. `setFormData` is never called,
so the field record is returned unchanged on every path. -/
def handleSubmit (fd : FormData) (r1 r2 r3 r4 : ℚ) : SubmitOutcome :=
  if missingRequired fd then
    { predictions := []
      toasts := [{ title := "Missing Information"
                   description := "Please fill in all required fields."
                   destructive := true }]
      formData := fd
      isLoading := false }
  else
    { predictions := [mockResult fd r1 r2 r3 r4]
      toasts := [{ title := "Prediction Complete!"
                   description := "Your yield prediction has been generated successfully."
                   destructive := false }]
      formData := fd
      isLoading := false }

/-! ### Dashboard (src/src/pages/Dashboard.tsx) -/

/-- Farm record (`interface Farm`). -/
structure Farm where
  id : String
  name : String
  location : String
  crop_type : String
  area_hectares : ℚ
  created_at : Nat
deriving DecidableEq

/-- Stored prediction record (`interface Prediction`). -/
structure Prediction where
  id : String
  yield_per_hectare : ℚ
  confidence_score : ℚ
  created_at : Nat
  farm_id : String
deriving DecidableEq

/-- Per-user profile record (`interface Profile`). -/
structure Profile where
  display_name : String
  farm_size_hectares : Option ℚ
  primary_crops : Option (List String)
  subscription_tier : String
deriving DecidableEq

/-- Derived `totalArea = farms.reduce((sum, farm) => sum + farm.area_hectares, 0)`. -/
def totalArea (farms : List Farm) : ℚ :=
  farms.foldl (fun s f => s + f.area_hectares) 0

/-- The Total Area card body: `{totalArea.toFixed(1)} ha`. -/
def totalAreaDisplay (farms : List Farm) : String :=
  toFixedStr 1 (totalArea farms) ++ " ha"

/-- Derived `avgYield`: mean of the fetched predictions' yield, 0 when none. -/
def avgYield (preds : List Prediction) : ℚ :=
  if preds.length > 0 then
    preds.foldl (fun s p => s + p.yield_per_hectare) 0 / preds.length
  else 0

/-- One entry of `chartData`; `date` is the locale-rendered creation date. -/
structure ChartPoint where
  date : String
  yield : ℚ
  confidence : ℚ
deriving DecidableEq

/-- The per-prediction projection inside `chartData`'s `map`:
pairs the rendered date with yield and confidence. -/
def toChartPoint (fmtDate : Nat → String) (p : Prediction) : ChartPoint :=
  { date := fmtDate p.created_at
    yield := p.yield_per_hectare
    confidence := p.confidence_score }

/-- Derived `chartData = predictions.slice(0, 7).map(...).reverse()`. -/
def chartData (fmtDate : Nat → String) (preds : List Prediction) : List ChartPoint :=
  ((preds.take 7).map (toChartPoint fmtDate)).reverse

/-- Sort direction of a supabase `.order(col, { ascending })` clause. -/
structure OrderClause where
  column : String
  ascending : Bool
deriving DecidableEq

/-- Shallow model of a supabase read-query builder chain. -/
structure Query where
  table : String
  orderBy : Option OrderClause
  rowLimit : Option Nat
  single : Bool
deriving DecidableEq

/-- Builder start `supabase.from(t)`. -/
def fromTable (t : String) : Query :=
  { table := t, orderBy := none, rowLimit := none, single := false }

/-- Projection `.select(cols)`: a read; leaves the query shape unchanged. -/
def Query.selectAll (q : Query) : Query := q

/-- Ordering clause `.order(col, ascending)`. -/
def Query.order (q : Query) (col : String) (asc : Bool) : Query :=
  { q with orderBy := some { column := col, ascending := asc } }

/-- Row bound `.limit(n)`. -/
def Query.limitTo (q : Query) (n : Nat) : Query :=
  { q with rowLimit := some n }

/-- Single-row marker `.single()`. -/
def Query.toSingle (q : Query) : Query :=
  { q with single := true }

/-- The three read queries passed to `Promise.all` in `fetchDashboardData`,
in source order. -/
def dashboardQueries : List Query :=
  [ ((fromTable "farms").selectAll).order "created_at" false,
    (((fromTable "predictions").selectAll).order "created_at" false).limitTo 10,
    ((fromTable "profiles").selectAll).toSingle ]

/-- The dashboard view state slots with their initial (default) values. -/
structure DashState where
  farms : List Farm
  predictions : List Prediction
  profile : Option Profile
  loading : Bool
deriving DecidableEq

/-- Initial state: `useState([])`, `useState([])`, `useState(null)`,
`useState(true)`. -/
def initialDashState : DashState :=
  { farms := [], predictions := [], profile := none, loading := true }

/-- Outcome of `Promise.all` over the three queries: it rejects with an
error if any promise rejects, otherwise fulfills with the three results,
whose `data` fields may each be null (`none`). -/
inductive FetchOutcome where
  | rejected (err : String)
  | fulfilled (farmsData : Option (List Farm)) (predsData : Option (List Prediction))
      (profileData : Option Profile)

/-- A `fetchDashboardData` run: the resulting view state and the console
error log entries produced. -/
structure FetchRun where
  state : DashState
  logs : List String
deriving DecidableEq

/-- Fetch handler `fetchDashboardData`: on rejection the `catch` logs the error and no
setter runs; on fulfillment each slot is set only when its `data` is
non-null; `finally` clears `loading` on every path. -/
def fetchDashboardData (s : DashState) (o : FetchOutcome) : FetchRun :=
  match o with
  | .rejected err =>
      { state := { s with loading := false }
        logs := ["Error fetching dashboard data: " ++ err] }
  | .fulfilled farmsData predsData profileData =>
      let s1 := match farmsData with
        | some xs => { s with farms := xs }
        | none => s
      let s2 := match predsData with
        | some xs => { s1 with predictions := xs }
        | none => s1
      let s3 := match profileData with
        | some p => { s2 with profile := some p }
        | none => s2
      { state := { s3 with loading := false }, logs := [] }

/-- What the component renders: the loading spinner, or the dashboard with
flags recording which empty-state placeholders show. The render has no
error branch at all (there is no error view in the component). -/
inductive View where
  | spinner
  | dashboard (noFarmsPlaceholder : Bool) (noChartPlaceholder : Bool)
      (noPredsPlaceholder : Bool)
deriving DecidableEq

/-- The render function of `Dashboard`: spinner while loading, otherwise
the dashboard, showing the farms / chart / predictions empty-state
placeholders exactly when the corresponding derived list is empty. -/
def renderDashboard (fmtDate : Nat → String) (s : DashState) : View :=
  if s.loading then .spinner
  else .dashboard s.farms.isEmpty (chartData fmtDate s.predictions).isEmpty
    s.predictions.isEmpty

/-! ### Helper lemmas -/

/-- Folding `+ area_hectares` over a farm list starting at `a` totals `a`
plus the sum of the areas. -/
theorem foldl_area_sum (a : ℚ) (l : List Farm) :
    l.foldl (fun s f => s + f.area_hectares) a = a + (l.map Farm.area_hectares).sum := by
  induction l generalizing a with
  | nil => simp
  | cons x xs ih => simp [ih]; ring

/-- Folding `+ yield_per_hectare` over a prediction list starting at `a`
totals `a` plus the sum of the yields. -/
theorem foldl_yield_sum (a : ℚ) (l : List Prediction) :
    l.foldl (fun s p => s + p.yield_per_hectare) a = a + (l.map Prediction.yield_per_hectare).sum := by
  induction l generalizing a with
  | nil => simp
  | cons x xs ih => simp [ih]; ring

/-- Rounding bracket for `toFixed`: if the scaled value lies in `[a, b)`
for integers `a < b`, the rounded value lies in `[a/10^f, b/10^f]`. -/
theorem toFixedVal_bounds (f : Nat) (x : ℚ) (a b : ℤ)
    (ha : (a : ℚ) ≤ x * (10 : ℚ) ^ f) (hb : x * (10 : ℚ) ^ f < (b : ℚ)) :
    (a : ℚ) / (10 : ℚ) ^ f ≤ toFixedVal f x ∧ toFixedVal f x ≤ (b : ℚ) / (10 : ℚ) ^ f := by
  have hpow : (0 : ℚ) < (10 : ℚ) ^ f := by positivity
  have hfl : a ≤ toFixedInt f x := Int.le_floor.mpr (by linarith)
  have hfu : toFixedInt f x ≤ b := by
    have hlt : toFixedInt f x < b + 1 := Int.floor_lt.mpr (by push_cast; linarith)
    omega
  unfold toFixedVal
  constructor
  · exact div_le_div_of_nonneg_right (by exact_mod_cast hfl) hpow.le
  · exact div_le_div_of_nonneg_right (by exact_mod_cast hfu) hpow.le

/-- Validation passes exactly when every required field is non-empty. -/
theorem missingRequired_eq_false_iff (fd : FormData) :
    missingRequired fd = false ↔
      (fd.name ≠ "" ∧ fd.phone ≠ "" ∧ fd.location ≠ "" ∧ fd.crop ≠ "") := by
  unfold missingRequired
  simp
  tauto

/-! ### Concrete sample records used by witnesses and counterexamples -/

/-- Form record with every required field populated and the optional
numeric fields left empty. -/
def validFd : FormData :=
  { name := "Jane Doe", phone := "+254 123 456 789", location := "Eldoret",
    crop := "maize", area := "", soilPh := "", soilMoisture := "", organicMatter := "" }

/-- Form record with an empty name and the other required fields populated. -/
def emptyNameFd : FormData :=
  { name := "", phone := "+254 123 456 789", location := "Nakuru",
    crop := "wheat", area := "1.5", soilPh := "6.5", soilMoisture := "22.0",
    organicMatter := "2.1" }

/-- Form record whose required fields are whitespace-only strings. -/
def whitespaceFd : FormData :=
  { name := " ", phone := " ", location := " ", crop := " ",
    area := "", soilPh := "", soilMoisture := "", organicMatter := "" }

/-- Sample newer prediction (creation timestamp 10). -/
def samplePredNew : Prediction :=
  { id := "p-new", yield_per_hectare := 3, confidence_score := 90,
    created_at := 10, farm_id := "farm-1" }

/-- Sample older prediction (creation timestamp 5). -/
def samplePredOld : Prediction :=
  { id := "p-old", yield_per_hectare := 4, confidence_score := 85,
    created_at := 5, farm_id := "farm-1" }

/-- Sample farm of 2.5 hectares. -/
def farmA : Farm :=
  { id := "farm-1", name := "North plot", location := "Eldoret",
    crop_type := "maize", area_hectares := 5 / 2, created_at := 1 }

/-- Sample farm of 1.5 hectares. -/
def farmB : Farm :=
  { id := "farm-2", name := "South plot", location := "Nakuru",
    crop_type := "wheat", area_hectares := 3 / 2, created_at := 2 }

/-! ### Claim theorems -/

/-- Claim C2: for every submission with at least one of name, phone,
location, crop empty, `onPrediction` is never invoked, a destructive
(blocking) toast is raised, and the form's field record is unchanged. -/
theorem handleSubmit_missing_required (fd : FormData) (r1 r2 r3 r4 : ℚ)
    (h : fd.name = "" ∨ fd.phone = "" ∨ fd.location = "" ∨ fd.crop = "") :
    (handleSubmit fd r1 r2 r3 r4).predictions = [] ∧
    (handleSubmit fd r1 r2 r3 r4).toasts =
      [{ title := "Missing Information",
         description := "Please fill in all required fields.",
         destructive := true }] ∧
    (handleSubmit fd r1 r2 r3 r4).formData = fd := by
  have hm : missingRequired fd = true := by
    unfold missingRequired
    rcases h with h | h | h | h <;> simp [h]
  exact ⟨by simp [handleSubmit, hm], by simp [handleSubmit, hm], by simp [handleSubmit, hm]⟩

/-- Witness for C2 at a record with an empty name. -/
theorem handleSubmit_missing_required_witness :
    (emptyNameFd.name = "" ∨ emptyNameFd.phone = "" ∨ emptyNameFd.location = "" ∨
      emptyNameFd.crop = "") ∧
    ((handleSubmit emptyNameFd 0 0 0 0).predictions = [] ∧
     (handleSubmit emptyNameFd 0 0 0 0).toasts =
       [{ title := "Missing Information",
          description := "Please fill in all required fields.",
          destructive := true }] ∧
     (handleSubmit emptyNameFd 0 0 0 0).formData = emptyNameFd) :=
  ⟨Or.inl rfl, handleSubmit_missing_required emptyNameFd 0 0 0 0 (Or.inl rfl)⟩

/-- Claim C3: for every farm list, the derived total area equals the sum
of the farms' `area_hectares`, and is 0 for the empty list. -/
theorem totalArea_eq_sum (farms : List Farm) :
    totalArea farms = (farms.map Farm.area_hectares).sum ∧
    totalArea ([] : List Farm) = 0 :=
  ⟨by simpa using foldl_area_sum 0 farms, rfl⟩

/-- Claim C4: for every prediction list, the derived average yield equals
the sum of the yields divided by the length (in ℚ, division by the length
0 of the empty list yields 0), and is 0 for the empty list. -/
theorem avgYield_eq_mean (preds : List Prediction) :
    avgYield preds = (preds.map Prediction.yield_per_hectare).sum / preds.length ∧
    avgYield ([] : List Prediction) = 0 := by
  refine ⟨?_, rfl⟩
  unfold avgYield
  rcases Nat.eq_zero_or_pos preds.length with h | h
  · rw [List.length_eq_zero] at h
    subst h
    simp
  · simp [h, foldl_yield_sum]

/-- Claim C6: `fetchDashboardData` issues exactly three read queries (via
`Promise.all`): all farms ordered newest-first by `created_at`, the
predictions ordered newest-first limited to 10 rows, and a single
`profiles` row. -/
theorem dashboardQueries_shape :
    dashboardQueries =
      [ { table := "farms",
          orderBy := some { column := "created_at", ascending := false },
          rowLimit := none, single := false },
        { table := "predictions",
          orderBy := some { column := "created_at", ascending := false },
          rowLimit := some 10, single := false },
        { table := "profiles", orderBy := none, rowLimit := none, single := true } ] ∧
    dashboardQueries.length = 3 :=
  ⟨rfl, rfl⟩

/-- Claim C8: for the farm list with areas 2.5 and 1.5 hectares, the
displayed total area string is "4.0 ha". -/
theorem totalAreaDisplay_example : totalAreaDisplay [farmA, farmB] = "4.0 ha" := by
  have h1 : totalArea [farmA, farmB] = 4 := by
    unfold totalArea farmA farmB
    norm_num
  have h2 : toFixedInt 1 4 = 40 := by
    unfold toFixedInt
    rw [Int.floor_eq_iff]
    norm_num
  rw [totalAreaDisplay, h1, toFixedStr, h2]
  rfl

/-- Claim C10: required-field validation rejects exactly the empty string:
the callback fires once if and only if name, phone, location and crop are
all non-empty, and in particular a whitespace-only record passes. -/
theorem handleSubmit_fires_iff_nonempty :
    (∀ (fd : FormData) (r1 r2 r3 r4 : ℚ),
      (handleSubmit fd r1 r2 r3 r4).predictions.length = 1 ↔
        (fd.name ≠ "" ∧ fd.phone ≠ "" ∧ fd.location ≠ "" ∧ fd.crop ≠ "")) ∧
    (handleSubmit whitespaceFd 0 0 0 0).predictions.length = 1 := by
  constructor
  · intro fd r1 r2 r3 r4
    rcases hb : missingRequired fd with hm | hm
    · simp [handleSubmit, hb, (missingRequired_eq_false_iff fd).mp hb]
    · simp only [handleSubmit, hb, if_true, List.length_nil]
      constructor
      · intro h0
        exact absurd h0 (by norm_num)
      · intro hall
        have : missingRequired fd = false := (missingRequired_eq_false_iff fd).mpr hall
        rw [hb] at this
        exact absurd this (by simp)
  · have hw : missingRequired whitespaceFd = false := by decide
    simp [handleSubmit, hw]

/-- Claim C5: given predictions fetched newest-first, the chart series has
length `min 7 n`, equals the 7 most recent predictions reversed into
chronological order with each entry pairing date, yield and confidence,
and those 7 predictions in reversed order are sorted oldest-to-newest by
creation timestamp. -/
theorem chartData_spec (fmtDate : Nat → String) (preds : List Prediction)
    (hsorted : preds.Sorted (fun a b => b.created_at ≤ a.created_at)) :
    (chartData fmtDate preds).length = min 7 preds.length ∧
    chartData fmtDate preds = ((preds.take 7).reverse).map (toChartPoint fmtDate) ∧
    ((preds.take 7).reverse).Sorted (fun a b => a.created_at ≤ b.created_at) := by
  refine ⟨?_, ?_, ?_⟩
  · simp [chartData]
  · simp [chartData, List.map_reverse]
  · exact List.pairwise_reverse.mpr
      (List.Pairwise.sublist (List.take_sublist 7 preds) hsorted)

/-- Witness for C5 at a concrete two-element newest-first list. -/
theorem chartData_spec_witness :
    List.Sorted (fun a b : Prediction => b.created_at ≤ a.created_at)
      [samplePredNew, samplePredOld] ∧
    ((chartData (fun n => toString n) [samplePredNew, samplePredOld]).length =
        min 7 ([samplePredNew, samplePredOld] : List Prediction).length ∧
      chartData (fun n => toString n) [samplePredNew, samplePredOld] =
        ((([samplePredNew, samplePredOld] : List Prediction).take 7).reverse).map
          (toChartPoint (fun n => toString n)) ∧
      ((([samplePredNew, samplePredOld] : List Prediction).take 7).reverse).Sorted
        (fun a b => a.created_at ≤ b.created_at)) :=
  ⟨by decide, chartData_spec (fun n => toString n) [samplePredNew, samplePredOld] (by decide)⟩

/-- Claim C7 as stated is false: a query that merely returns no data (null
`data` without a rejected promise) leaves its slot at the default but logs
nothing, so "the failure is logged" fails at this input. -/
theorem fetchDashboard_silent_null_data :
    (fetchDashboardData initialDashState (FetchOutcome.fulfilled none none none)).logs = [] ∧
    (fetchDashboardData initialDashState
      (FetchOutcome.fulfilled none none none)).state.farms = [] :=
  ⟨rfl, rfl⟩

/-- Claim C7 (amended): for every fetch outcome, each view-state slot
equals the fetched data when present and retains its empty/default value
otherwise, loading ends, the run is logged exactly when the aggregate
promise rejected (a query returning no data is silent), and the component
renders the dashboard view (which has no error branch), with empty-state
placeholders exactly for the empty slots. -/
theorem fetchDashboard_degrades_gracefully (fmtDate : Nat → String) (o : FetchOutcome) :
    (fetchDashboardData initialDashState o).state.loading = false ∧
    (fetchDashboardData initialDashState o).state.farms =
      (match o with | .fulfilled (some xs) _ _ => xs | _ => []) ∧
    (fetchDashboardData initialDashState o).state.predictions =
      (match o with | .fulfilled _ (some xs) _ => xs | _ => []) ∧
    (fetchDashboardData initialDashState o).state.profile =
      (match o with | .fulfilled _ _ (some p) => some p | _ => none) ∧
    (fetchDashboardData initialDashState o).logs =
      (match o with
        | .rejected err => ["Error fetching dashboard data: " ++ err]
        | _ => []) ∧
    renderDashboard fmtDate (fetchDashboardData initialDashState o).state =
      View.dashboard (fetchDashboardData initialDashState o).state.farms.isEmpty
        (chartData fmtDate (fetchDashboardData initialDashState o).state.predictions).isEmpty
        (fetchDashboardData initialDashState o).state.predictions.isEmpty := by
  cases o with
  | rejected err => exact ⟨rfl, rfl, rfl, rfl, rfl, rfl⟩
  | fulfilled farmsData predsData profileData =>
    cases farmsData <;> cases predsData <;> cases profileData <;>
      exact ⟨rfl, rfl, rfl, rfl, rfl, rfl⟩

/-- Claim C1 as stated is false: with draw r1 = 999/1000 the sampled yield
is 4.997, and the yield field the callback receives is the string "5.00",
which denotes the value 5, outside the half-open interval [2,5). -/
theorem handleSubmit_yield_field_reaches_five :
    (handleSubmit validFd (999 / 1000) 0 0 0).predictions.map MockResult.yield = ["5.00"] ∧
    toFixedVal 2 ((999 : ℚ) / 1000 * 3 + 2) = 5 ∧
    ¬ toFixedVal 2 ((999 : ℚ) / 1000 * 3 + 2) < 5 := by
  have hint : toFixedInt 2 ((999 : ℚ) / 1000 * 3 + 2) = 500 := by
    unfold toFixedInt
    rw [Int.floor_eq_iff]
    norm_num
  have hv : missingRequired validFd = false := by decide
  have hstr : toFixedStr 2 ((999 : ℚ) / 1000 * 3 + 2) = "5.00" := by
    rw [toFixedStr, hint]
    rfl
  refine ⟨?_, ?_, ?_⟩
  · simp [handleSubmit, hv, mockResult, hstr]
  · rw [toFixedVal, hint]
    norm_num
  · rw [toFixedVal, hint]
    norm_num

/-- Claim C1 (amended): for every submission with the four required fields
non-empty and draws in [0,1), the callback is invoked exactly once; the
sampled yield, temperature, rainfall and confidence lie in [2,5), [18,28),
[30,90) and [80,100) respectively; and the rounded values denoted by the
result's string fields lie in the closed intervals [2,5], [18,28], [30,90]
and [80,100] (toFixed rounding can reach the upper endpoint). -/
theorem handleSubmit_valid_ranges (fd : FormData) (r1 r2 r3 r4 : ℚ)
    (hname : fd.name ≠ "") (hphone : fd.phone ≠ "") (hloc : fd.location ≠ "")
    (hcrop : fd.crop ≠ "")
    (h1 : 0 ≤ r1) (h1' : r1 < 1) (h2 : 0 ≤ r2) (h2' : r2 < 1)
    (h3 : 0 ≤ r3) (h3' : r3 < 1) (h4 : 0 ≤ r4) (h4' : r4 < 1) :
    (handleSubmit fd r1 r2 r3 r4).predictions = [mockResult fd r1 r2 r3 r4] ∧
    (2 ≤ r1 * 3 + 2 ∧ r1 * 3 + 2 < 5) ∧
    (18 ≤ r2 * 10 + 18 ∧ r2 * 10 + 18 < 28) ∧
    (30 ≤ r3 * 60 + 30 ∧ r3 * 60 + 30 < 90) ∧
    (80 ≤ r4 * 20 + 80 ∧ r4 * 20 + 80 < 100) ∧
    (2 ≤ toFixedVal 2 (r1 * 3 + 2) ∧ toFixedVal 2 (r1 * 3 + 2) ≤ 5) ∧
    (18 ≤ toFixedVal 1 (r2 * 10 + 18) ∧ toFixedVal 1 (r2 * 10 + 18) ≤ 28) ∧
    (30 ≤ toFixedVal 0 (r3 * 60 + 30) ∧ toFixedVal 0 (r3 * 60 + 30) ≤ 90) ∧
    (80 ≤ toFixedVal 0 (r4 * 20 + 80) ∧ toFixedVal 0 (r4 * 20 + 80) ≤ 100) := by
  have hm : missingRequired fd = false :=
    (missingRequired_eq_false_iff fd).mpr ⟨hname, hphone, hloc, hcrop⟩
  have b1 := toFixedVal_bounds 2 (r1 * 3 + 2) 200 500
    (by norm_num; linarith) (by norm_num; linarith)
  have b2 := toFixedVal_bounds 1 (r2 * 10 + 18) 180 280
    (by norm_num; linarith) (by norm_num; linarith)
  have b3 := toFixedVal_bounds 0 (r3 * 60 + 30) 30 90
    (by norm_num; linarith) (by norm_num; linarith)
  have b4 := toFixedVal_bounds 0 (r4 * 20 + 80) 80 100
    (by norm_num; linarith) (by norm_num; linarith)
  norm_num at b1 b2 b3 b4
  refine ⟨by simp [handleSubmit, hm], ⟨by linarith, by linarith⟩,
    ⟨by linarith, by linarith⟩, ⟨by linarith, by linarith⟩, ⟨by linarith, by linarith⟩,
    b1, b2, b3, b4⟩

/-- Witness for the amended C1 at the populated record and draws 1/2. -/
theorem handleSubmit_valid_ranges_witness :
    validFd.name ≠ "" ∧ validFd.phone ≠ "" ∧ validFd.location ≠ "" ∧ validFd.crop ≠ "" ∧
    ((0 : ℚ) ≤ 1 / 2 ∧ (1 / 2 : ℚ) < 1) ∧
    (handleSubmit validFd (1 / 2) (1 / 2) (1 / 2) (1 / 2)).predictions =
      [mockResult validFd (1 / 2) (1 / 2) (1 / 2) (1 / 2)] :=
  ⟨by decide, by decide, by decide, by decide, ⟨by norm_num, by norm_num⟩,
    (handleSubmit_valid_ranges validFd (1 / 2) (1 / 2) (1 / 2) (1 / 2)
      (by decide) (by decide) (by decide) (by decide)
      (by norm_num) (by norm_num) (by norm_num) (by norm_num)
      (by norm_num) (by norm_num) (by norm_num) (by norm_num)).1⟩

/-- Claim C9: every successful submission's result carries yield,
temperature, rainfall and confidence as toFixed decimal strings (2, 1, 0
and 0 places respectively), and its farmData is the submitted form record
verbatim, including any unvalidated or empty optional fields. -/
theorem handleSubmit_result_fields (fd : FormData) (r1 r2 r3 r4 : ℚ)
    (hname : fd.name ≠ "") (hphone : fd.phone ≠ "") (hloc : fd.location ≠ "")
    (hcrop : fd.crop ≠ "") :
    (handleSubmit fd r1 r2 r3 r4).predictions =
      [{ yield := toFixedStr 2 (r1 * 3 + 2),
         weather := { temperature := toFixedStr 1 (r2 * 10 + 18),
                      rainfall := toFixedStr 0 (r3 * 60 + 30) },
         confidence := toFixedStr 0 (r4 * 20 + 80),
         farmData := fd }] := by
  have hm : missingRequired fd = false :=
    (missingRequired_eq_false_iff fd).mpr ⟨hname, hphone, hloc, hcrop⟩
  simp [handleSubmit, hm, mockResult]

/-- Witness for C9 at a record whose optional fields are empty, draws 0. -/
theorem handleSubmit_result_fields_witness :
    validFd.name ≠ "" ∧
    (handleSubmit validFd 0 0 0 0).predictions =
      [{ yield := toFixedStr 2 (0 * 3 + 2),
         weather := { temperature := toFixedStr 1 (0 * 10 + 18),
                      rainfall := toFixedStr 0 (0 * 60 + 30) },
         confidence := toFixedStr 0 (0 * 20 + 80),
         farmData := validFd }] :=
  ⟨by decide, handleSubmit_result_fields validFd 0 0 0 0
    (by decide) (by decide) (by decide) (by decide)⟩

end SoilSmarter
